import Mathlib

set_option maxRecDepth 20000

/-!
Shallow embedding of `src/app.py` (AI Nutrition Advisor, a Streamlit +
CrewAI single-file application) and proofs of the specification claims
about it.

The embedding models:
* the process environment as a partial map from variable names to strings
  (case-sensitive, as POSIX environments are);
* the module-level startup code (`load_dotenv` re-assignments of
  `SERPER_API_KEY` / `GOOGLE_API_KEY`, construction of the shared `llm`
  client configuration);
* `create_agents`, `create_tasks`, `create_crew`, `run_nutrition_advisor`;
* the submission path of `app()` (goal validation, `user_info` assembly
  with Python-truthiness fallbacks, the API-key warning check, result
  rendering and the download button) as a pure function from the form
  state and the opaque outcome of `crew.kickoff()` to the list of UI
  events the page emits.

The CrewAI / model-provider internals are opaque: `crew.kickoff()` is a
parameter of type `Except String String` (an exception message, or the
final textual output).
-/

/-- A process environment: variable name to value, absent variables are
`none`.  POSIX environment lookups are case-sensitive, which the model
keeps. -/
def Env : Type := String → Option String

/-- Python truthiness of `os.getenv(k)`: `None` and the empty string are
falsy, every other string is truthy.  Returns `true` when the value is
falsy. -/
def envFalsy : Option String → Bool
  | none => true
  | some s => s.isEmpty

/-- One statement `os.environ[key] = os.getenv(key)`.  When the variable
is absent, `os.getenv` returns `None` and CPython raises
`TypeError: str expected, not NoneType` from `os.environ.__setitem__`;
otherwise the assignment is an identity re-write of the environment. -/
def setenvSelf (env : Env) (key : String) : Except String Env :=
  match env key with
  | some v => .ok (fun k => if k = key then some v else env k)
  | none => .error "TypeError: str expected, not NoneType"

/-- Module import-time code of `app.py` lines 9-11: `load_dotenv()` (a
no-op on the modelled environment, the repository ships no `.env` file)
followed by the two self-assignments.  Returns the environment after
startup, or the startup exception. -/
def startupEnv (env : Env) : Except String Env := do
  let e1 ← setenvSelf env "SERPER_API_KEY"
  setenvSelf e1 "GOOGLE_API_KEY"

/-- The shared model-client configuration (`llm = LLM(...)`, lines
16-20). -/
structure LLMConfig where
  model : String
  api_key : Option String
  verbose : Bool
  deriving DecidableEq

/-- `llm` as constructed at module import time: fixed model identifier,
credential read from the correctly-cased `GOOGLE_API_KEY`, verbose
logging on. -/
def llm (env : Env) : LLMConfig :=
  { model := "gemini/gemini-2.0-flash"
    api_key := env "GOOGLE_API_KEY"
    verbose := true }

/-- The startup credential check of `app()` line 220:
`if not os.getenv("SERPER_API_KEY") or not os.getenv("Google_API_KEY")`.
Note the mixed-case `Google_API_KEY`, different from the `GOOGLE_API_KEY`
used for the client. -/
def apiKeyWarning (env : Env) : Bool :=
  envFalsy (env "SERPER_API_KEY") || envFalsy (env "Google_API_KEY")

/-- Tool capabilities an agent may carry; the only one in the program is
the Serper web-search tool (`search_tool = SerperDevTool()`, line 14). -/
inductive Tool where
  | serperDev
  deriving DecidableEq

/-- A CrewAI agent descriptor as configured by this program.  Fields not
passed at a construction site keep CrewAI defaults: `tools=[]`,
`memory=False`, `allow_delegation=False`. -/
structure Agent where
  role : String
  goal : String
  backstory : String
  tools : List Tool := []
  llm : LLMConfig
  verbose : Bool
  memory : Bool := false
  allow_delegation : Bool := false
  deriving DecidableEq

/-- `create_agents` (lines 21-61): the three role-bound descriptors, all
referencing the one shared client configuration. -/
def create_agents (cfg : LLMConfig) : Agent × Agent × Agent :=
  let nutritionist : Agent :=
    { role := "Nutrition Specialist"
      goal := "Research and develop personalized nutritional recommendations based on scientific evidence"
      backstory := "You are a highly qualified nutritionist with expertise in therapeutic diets, \n                    nutrient interactions, and dietary requirements across different health conditions. \n                    Your recommendations are always backed by peer-reviewed research."
      tools := [Tool.serperDev]
      llm := cfg
      verbose := true
      memory := true
      allow_delegation := true }
  let medical_specialist : Agent :=
    { role := "Medical Nutrition Therapist"
      goal := "Analyze medical conditions and provide appropriate dietary modifications"
      backstory := "With dual training in medicine and nutrition, you specialize in managing \n                    nutrition-related aspects of various medical conditions. You understand \n                    medication-food interactions and how to optimize nutrition within medical constraints."
      tools := [Tool.serperDev]
      llm := cfg
      verbose := true }
  let diet_planner : Agent :=
    { role := "Therapeutic Diet Planner"
      goal := "Create detailed, practical and enjoyable meal plans tailored to individual needs"
      backstory := "You excel at transforming clinical nutrition requirements into delicious, \n                    practical eating plans. You have extensive knowledge of food preparation, \n                    nutrient preservation, and food combinations that optimize both health and enjoyment."
      llm := cfg
      verbose := true }
  (nutritionist, medical_specialist, diet_planner)

/-- Python truthiness-based fallback for strings: `s or d` yields `d`
exactly when `s` is the empty string (whitespace is truthy and passes
through). -/
def pyOrStr (s d : String) : String :=
  if s = "" then d else s

/-- `", ".join(gs)`, Python string join. -/
def joinGoals : List String → String
  | [] => ""
  | [g] => g
  | g :: g2 :: gs => g ++ ", " ++ joinGoals (g2 :: gs)

/-- The fixed vocabulary of the Nutrition Goals multiselect
(lines 172-176). -/
def goalOptions : List String :=
  ["Weight Loss", "Weight Gain", "Maintenance", "Muscle Building",
   "Better Energy", "Improved Athletic Performance",
   "Disease Management", "General Health"]

/-- Raw widget values of the form at submission time.  `goals` is the
multiselect value, a list of selected options; the free-text fields can
hold anything. -/
structure FormState where
  age : Nat
  gender : String
  height : String
  weight : String
  goals : List String
  activity_level : String
  medical_conditions : String
  allergies : String
  location : String
  budget : String
  deriving DecidableEq

/-- The `user_info` mapping (lines 206-217), after the fallback
substitutions.  `age` stays numeric; the f-strings render it with
`toString`. -/
structure UserInfo where
  age : Nat
  gender : String
  height : String
  weight : String
  activity_level : String
  goals : String
  medical_conditions : String
  allergies : String
  budget : String
  location : String
  deriving DecidableEq

/-- Assembly of `user_info` from the form values (lines 206-217):
`", ".join(goals) if goals else "General health improvement"`,
`medical_conditions or "None reported"`, `allergies or "None reported"`,
`location or "No specific factors"`. -/
def mkUserInfo (f : FormState) : UserInfo :=
  { age := f.age
    gender := f.gender
    height := f.height
    weight := f.weight
    activity_level := f.activity_level
    goals := if f.goals.isEmpty then "General health improvement" else joinGoals f.goals
    medical_conditions := pyOrStr f.medical_conditions "None reported"
    allergies := pyOrStr f.allergies "None reported"
    budget := f.budget
    location := pyOrStr f.location "No specific factors" }

/-- A CrewAI task (`Task(...)`) as configured by this program: description text,
assigned agent, context tasks whose outputs are injected, and the
expected-output hint.  A task constructed without `context=` gets the
empty context list. -/
inductive TaskSpec where
  | mk (description : String) (agent : Agent) (context : List TaskSpec)
      (expected_output : String)

def TaskSpec.description : TaskSpec → String
  | .mk d _ _ _ => d

def TaskSpec.agent : TaskSpec → Agent
  | .mk _ a _ _ => a

def TaskSpec.context : TaskSpec → List TaskSpec
  | .mk _ _ c _ => c

def TaskSpec.expected_output : TaskSpec → String
  | .mk _ _ _ e => e

/-- The first task description f-string (lines 68-81), byte-faithful to
the Python triple-quoted literal (12-space indents, the separator line
holds 12 spaces). -/
def demographicsDescription (u : UserInfo) : String :=
  "Research nutritional needs for an individual with the following demographics:\n            - Age: " ++
  toString u.age ++
  "\n            - Gender: " ++ u.gender ++
  "\n            - Height: " ++ u.height ++
  "\n            - Weight: " ++ u.weight ++
  "\n            - Activity Level: " ++ u.activity_level ++
  "\n            - Goals: " ++ u.goals ++
  "\n            \n            Provide detailed nutritional requirements including:\n            1. Caloric needs (basal and adjusted for activity)\n            2. Macronutrient distribution (proteins, carbs, fats)\n            3. Key micronutrients particularly important for this demographic\n            4. Hydration requirements\n            5. Meal timing and frequency recommendations"

/-- The second task description f-string (lines 88-97). -/
def medicalDescription (u : UserInfo) : String :=
  "Analyze the following medical conditions and medications, then provide dietary modifications:\n            - Medical Conditions: " ++
  u.medical_conditions ++
  "\n            - Allergies/Intolerances: " ++ u.allergies ++
  "\n            \n            Consider the baseline nutritional profile and provide:\n            1. Specific nutrients to increase or limit based on each condition\n            2. Food-medication interactions to avoid\n            3. Potential nutrient deficiencies associated with these conditions/medications\n            4. Foods that may help manage symptoms or improve outcomes\n            5. Foods to strictly avoid"

/-- The third task description f-string (lines 105-116); its separator
line is empty (no indent spaces), and the second bullet label `5.` is
duplicated in the source. -/
def dietPlanDescription (u : UserInfo) : String :=
  "Create a detailed, practical diet plan incorporating all information:\n            - Budget Constraints: " ++
  u.budget ++
  "\n            - location\x27s geography / Local Staples: " ++ u.location ++
  "\n\n            Develop a comprehensive nutrition plan that includes:\n            1. Specific foods to eat daily, weekly, and occasionally with portion sizes\n            2. A 7-day meal plan with specific meals and recipes in tabular format\n            3. Meal preparation tips and simple recipes\n            4. Eating out guidelines and suggested restaurant options/orders\n            5. Supplement recommendations if necessary (with scientific justification)\n            5. Hydration schedule and recommended beverages\n            6. How to monitor progress and potential adjustments over time"

/-- `create_tasks` (lines 63-122): three tasks with the fixed sequential
context chaining. -/
def create_tasks (nutritionist medical_specialist diet_planner : Agent)
    (user_info : UserInfo) : List TaskSpec :=
  let demographics_research := TaskSpec.mk (demographicsDescription user_info)
    nutritionist []
    "A comprehensive nutritional profile with scientific rationale"
  let medical_analysis := TaskSpec.mk (medicalDescription user_info)
    medical_specialist [demographics_research]
    "A detailed analysis of medical nutrition therapy adjustments"
  let diet_plan := TaskSpec.mk (dietPlanDescription user_info)
    diet_planner [demographics_research, medical_analysis]
    "A comprehensive, practical, and personalized nutrition plan"
  [demographics_research, medical_analysis, diet_plan]

/-- The crew process mode; this program always uses the sequential one. -/
inductive CrewProc where
  | sequential
  deriving DecidableEq

/-- `Crew(agents=..., tasks=..., process=Process.sequential)`. -/
structure Crew where
  agents : List Agent
  tasks : List TaskSpec
  process : CrewProc

/-- `create_crew` (lines 124-130). -/
def create_crew (agents : List Agent) (tasks : List TaskSpec) : Crew :=
  { agents := agents, tasks := tasks, process := CrewProc.sequential }

/-- Observable UI effects of one submission, in emission order. -/
inductive UIEvent where
  | errorMsg (text : String)
  | warningMsg (text : String)
  | jsonSummary (info : UserInfo)
  | successMsg (text : String)
  | markdownText (text : String)
  | downloadButton (label : String) (data : String) (file_name : String)
      (mime : String)
  deriving DecidableEq

/-- The agents, tasks and crew that `run_nutrition_advisor` (lines
132-151) builds before calling `crew.kickoff()`. -/
def builtCrew (env : Env) (user_info : UserInfo) : Crew :=
  let (nutritionist, medical_specialist, diet_planner) := create_agents (llm env)
  let tasks := create_tasks nutritionist medical_specialist diet_planner user_info
  create_crew [nutritionist, medical_specialist, diet_planner] tasks

/-- The `try`/`except` around `crew.kickoff()`: an `.ok` outcome is
returned as the result with no UI output; any exception yields `None` and
the single `st.error` emission. -/
def advisorOutcome : Except String String → Option String × List UIEvent
  | .ok result => (some result, [])
  | .error e => (none, [UIEvent.errorMsg ("An error occurred: " ++ e)])

/-- `run_nutrition_advisor` (lines 132-151): builds agents, tasks and the
crew, then runs `crew.kickoff()` inside a `try`.  The kickoff outcome is
a parameter of the model (`.ok` final text, or `.error` exception
message); the whole `try` body is deterministic apart from it. -/
def run_nutrition_advisor (env : Env) (kickoff : Crew → Except String String)
    (user_info : UserInfo) : Option String × List UIEvent :=
  advisorOutcome (kickoff (builtCrew env user_info))

/-- The `if result:` block of `app()` (lines 236-249).  `result` is the
kickoff output object or `None`; a non-`None` object is truthy, so the
branch renders the success banner, the plan markdown, and the download
button whose data is `str(result)` — the same string that is rendered. -/
def renderResult : Option String → List UIEvent
  | some result =>
      [UIEvent.successMsg "✅ Your personalized nutrition plan is ready!",
       UIEvent.markdownText "## Your Personalized Nutrition Plan",
       UIEvent.markdownText result,
       UIEvent.downloadButton "Download Nutrition Plan" result
         "my_nutrition_plan.txt" "text/markdown"]
  | none => []

/-- The submission path of `app()` (lines 224-249), from the button click
onward.  Returns whether `run_nutrition_advisor` was invoked, paired with
the UI events emitted.  An empty goals selection short-circuits with the
inline error and `return`s before any pipeline work. -/
def app_submit (env : Env) (kickoff : Crew → Except String String)
    (f : FormState) : Bool × List UIEvent :=
  if f.goals.isEmpty then
    (false, [UIEvent.errorMsg "Please select at least one nutrition goal."])
  else
    let user_info := mkUserInfo f
    let out := run_nutrition_advisor env kickoff user_info
    (true, UIEvent.jsonSummary user_info :: out.2 ++ renderResult out.1)

/-- The plan text rendered by the result block: the `st.markdown(result)`
payload.  In every event stream the page emits, the plan body is the last
`markdownText` event (the fixed `##` section header precedes it), so we
extract the last `markdownText`. -/
def renderedPlan : List UIEvent → Option String
  | [] => none
  | UIEvent.markdownText s :: evs =>
      match renderedPlan evs with
      | some t => some t
      | none => some s
  | _ :: evs => renderedPlan evs

/-- The data offered by the download button, when one is emitted. -/
def downloadData : List UIEvent → Option String
  | [] => none
  | UIEvent.downloadButton _ data _ _ :: _ => some data
  | _ :: evs => downloadData evs

/-- `t` matches at the head of `s` (character-wise). -/
def matchesAt : List Char → List Char → Bool
  | [], _ => true
  | _ :: _, [] => false
  | a :: t, b :: s => a == b && matchesAt t s

/-- `t` occurs contiguously somewhere in `s`. -/
def hasSubAux (t : List Char) : List Char → Bool
  | [] => matchesAt t []
  | c :: s => matchesAt t (c :: s) || hasSubAux t s

/-- Python `pat in s` for strings: `pat` is a contiguous substring of
`s`. -/
def strContains (s pat : String) : Bool :=
  hasSubAux pat.data s.data

/-- The end-to-end scenario profile of the spec (§8 item 5): age 30, male,
goals `["Weight Loss"]`, moderately active, medical conditions and
allergies at their fallbacks, moderate budget, location fallback; height
and weight keep the form defaults. -/
def scenarioProfile : UserInfo :=
  { age := 30
    gender := "Male"
    height := "5\x2710\""
    weight := "160 lbs"
    activity_level := "Moderately Active"
    goals := "Weight Loss"
    medical_conditions := "None reported"
    allergies := "None reported"
    budget := "Moderate"
    location := "No specific factors" }

/-- An environment with no variables set at all. -/
def noEnv : Env := fun _ => none

/-- An environment carrying only the search credential. -/
def serperOnlyEnv : Env :=
  fun k => if k = "SERPER_API_KEY" then some "serper-key" else none

/-- An environment carrying only the correctly-cased model credential
(and the search credential, so that only the miscased lookup can make the
warning fire). -/
def googleOnlyEnv : Env :=
  fun k =>
    if k = "GOOGLE_API_KEY" then some "gk"
    else if k = "SERPER_API_KEY" then some "sk"
    else none

/-- A kickoff that raises (models any pipeline exception). -/
def failKickoff (e : String) : Crew → Except String String :=
  fun _ => Except.error e

/-- A kickoff that returns final text `r`. -/
def okKickoff (r : String) : Crew → Except String String :=
  fun _ => Except.ok r

/-- The spec §8 scenario as raw form values: defaults for height and
weight, empty optional free-text fields. -/
def weightLossForm : FormState :=
  { age := 30
    gender := "Male"
    height := "5\x2710\""
    weight := "160 lbs"
    goals := ["Weight Loss"]
    activity_level := "Moderately Active"
    medical_conditions := ""
    allergies := ""
    location := ""
    budget := "Moderate" }

/-- The same form with the goals multiselect left empty. -/
def emptyGoalsForm : FormState :=
  { weightLossForm with goals := [] }

/-- The same form with whitespace-only optional free-text fields. -/
def whitespaceForm : FormState :=
  { weightLossForm with
      medical_conditions := " "
      allergies := " "
      location := " " }

/-- Two lists that already differ within the first `n` elements of the
left summand stay different after appending. -/
theorem append_ne_of_take_ne {α : Type} (a b t : List α) (n : Nat)
    (hn : n ≤ a.length) (h : a.take n ≠ t.take n) : a ++ b ≠ t := by
  intro he
  apply h
  rw [← List.take_append_of_le_length hn, he]

/-- A string extending `o` differs from `fb` as soon as `o` disagrees
with `fb` somewhere in its first `n` characters. -/
theorem strAppend_ne (o r fb : String) (n : Nat) (hn : n ≤ o.data.length)
    (h : o.data.take n ≠ fb.data.take n) : o ++ r ≠ fb := by
  intro he
  have hd : o.data ++ r.data = fb.data := by
    rw [← String.data_append, he]
  exact append_ne_of_take_ne o.data r.data fb.data n hn h hd

/-- Python join of a non-empty list starts with its head. -/
theorem joinGoals_cons (g : String) (gs : List String) :
    ∃ r, joinGoals (g :: gs) = g ++ r := by
  cases gs with
  | nil =>
      refine ⟨"", String.ext ?_⟩
      simp [joinGoals, String.data_append]
  | cons g2 gs =>
      refine ⟨", " ++ joinGoals (g2 :: gs), String.ext ?_⟩
      simp [joinGoals, String.data_append]

/-- No string that starts with one of the multiselect options is the
empty-selection fallback `"General health improvement"`: each option
disagrees with the fallback within its own length (all but
`"General Health"` at the first character, that one at the lowercase
`h`). -/
theorem option_head_blocks_fallback (o : String) (ho : o ∈ goalOptions)
    (r : String) : o ++ r ≠ "General health improvement" := by
  simp only [goalOptions, List.mem_cons, List.not_mem_nil, or_false] at ho
  rcases ho with rfl | rfl | rfl | rfl | rfl | rfl | rfl | rfl
  · exact strAppend_ne _ r _ 1 (by decide) (by decide)
  · exact strAppend_ne _ r _ 1 (by decide) (by decide)
  · exact strAppend_ne _ r _ 1 (by decide) (by decide)
  · exact strAppend_ne _ r _ 1 (by decide) (by decide)
  · exact strAppend_ne _ r _ 1 (by decide) (by decide)
  · exact strAppend_ne _ r _ 1 (by decide) (by decide)
  · exact strAppend_ne _ r _ 1 (by decide) (by decide)
  · exact strAppend_ne _ r _ 9 (by decide) (by decide)

/-- The join of a non-empty selection drawn from the multiselect
vocabulary is never the empty-selection fallback. -/
theorem joinGoals_ne_fallback (gs : List String) (hne : gs ≠ [])
    (hv : ∀ g ∈ gs, g ∈ goalOptions) :
    joinGoals gs ≠ "General health improvement" := by
  cases gs with
  | nil => exact absurd rfl hne
  | cons g gs =>
      obtain ⟨r, hr⟩ := joinGoals_cons g gs
      rw [hr]
      exact option_head_blocks_fallback g (hv g (by simp)) r

/-- C1: for every user profile and agent triple, `create_tasks` produces
exactly three tasks; the second task's context list equals the singleton
of the first task and the third task's context list equals the first
task followed by the second, identically for all inputs. -/
theorem create_tasks_three_chained_context
    (nutritionist medical_specialist diet_planner : Agent) (u : UserInfo) :
    ∃ t1 t2 t3,
      create_tasks nutritionist medical_specialist diet_planner u = [t1, t2, t3] ∧
      t2.context = [t1] ∧ t3.context = [t1, t2] :=
  ⟨_, _, _, rfl, rfl, rfl⟩

/-- C2: a submission with an empty goals selection never invokes the
pipeline (`run_nutrition_advisor` is not called) and emits exactly the
input-error message, aborting with no partial execution. -/
theorem empty_goals_aborts_submission (env : Env)
    (kickoff : Crew → Except String String) (f : FormState)
    (h : f.goals = []) :
    app_submit env kickoff f =
      (false, [UIEvent.errorMsg "Please select at least one nutrition goal."]) := by
  simp [app_submit, h]

/-- C2 witness: a concrete empty-goals submission. -/
theorem empty_goals_aborts_submission_witness :
    emptyGoalsForm.goals = [] ∧
    app_submit noEnv (failKickoff "boom") emptyGoalsForm =
      (false, [UIEvent.errorMsg "Please select at least one nutrition goal."]) :=
  ⟨rfl, empty_goals_aborts_submission noEnv (failKickoff "boom") emptyGoalsForm rfl⟩

/-- C3 counterexample: whitespace-only optional fields are NOT replaced
by the fallback literals — Python `or` keys on emptiness and `" "` is
truthy — so the whitespace-only half of the claim fails on the code. -/
theorem whitespace_fields_pass_verbatim :
    (mkUserInfo whitespaceForm).medical_conditions = " " ∧
    (mkUserInfo whitespaceForm).allergies = " " ∧
    (mkUserInfo whitespaceForm).location = " " ∧
    (" " : String) ≠ "None reported" ∧
    (" " : String) ≠ "No specific factors" := by
  refine ⟨rfl, rfl, rfl, ?_, ?_⟩ <;> decide

/-- C3 (amended): the optional free-text fields are replaced by the
fallback literals exactly when they are the empty string; any other
value — whitespace-only included — is passed to prompt interpolation
verbatim. -/
theorem optional_field_fallback_exact (f : FormState) :
    (mkUserInfo f).medical_conditions =
      (if f.medical_conditions = "" then "None reported" else f.medical_conditions) ∧
    (mkUserInfo f).allergies =
      (if f.allergies = "" then "None reported" else f.allergies) ∧
    (mkUserInfo f).location =
      (if f.location = "" then "No specific factors" else f.location) :=
  ⟨rfl, rfl, rfl⟩

/-- C4: with a credential absent at process start (the empty environment,
or one carrying only the search credential), the module-level statement
`os.environ[key] = os.getenv(key)` raises a `TypeError` — startup does
not complete, so the warning-only behavior the claim describes never
happens for genuinely absent variables. -/
theorem startup_crash_on_missing_credentials :
    startupEnv noEnv = Except.error "TypeError: str expected, not NoneType" ∧
    startupEnv serperOnlyEnv = Except.error "TypeError: str expected, not NoneType" :=
  ⟨rfl, rfl⟩

/-- C5: the startup check reads `Google_API_KEY` while the client is
built from `GOOGLE_API_KEY`; in every environment where only the
correctly-cased name is set, the warning condition holds even though the
client received its credential. -/
theorem warning_check_reads_miscased_key (env : Env) (k : String)
    (hset : env "GOOGLE_API_KEY" = some k)
    (hmiss : env "Google_API_KEY" = none) :
    apiKeyWarning env = true ∧ (llm env).api_key = some k := by
  constructor
  · simp [apiKeyWarning, hmiss, envFalsy]
  · simp [llm, hset]

/-- C5 witness: an environment carrying `SERPER_API_KEY` and the
correctly-cased `GOOGLE_API_KEY` only. -/
theorem warning_check_reads_miscased_key_witness :
    googleOnlyEnv "GOOGLE_API_KEY" = some "gk" ∧
    googleOnlyEnv "Google_API_KEY" = none ∧
    (apiKeyWarning googleOnlyEnv = true ∧ (llm googleOnlyEnv).api_key = some "gk") :=
  ⟨rfl, rfl, warning_check_reads_miscased_key googleOnlyEnv "gk" rfl rfl⟩

/-- C6: when the pipeline raises (the kickoff yields an exception for
every crew), the submission emits exactly the summary and one error
message; no plan markdown, no success banner and no download are
produced. -/
theorem pipeline_exception_single_error (env : Env)
    (kickoff : Crew → Except String String) (f : FormState) (e : String)
    (hne : f.goals ≠ []) (hk : ∀ c, kickoff c = Except.error e) :
    app_submit env kickoff f =
      (true, [UIEvent.jsonSummary (mkUserInfo f),
              UIEvent.errorMsg ("An error occurred: " ++ e)]) ∧
    renderedPlan (app_submit env kickoff f).2 = none ∧
    downloadData (app_submit env kickoff f).2 = none := by
  have hg : f.goals.isEmpty = false := List.isEmpty_eq_false.mpr hne
  have hmain : app_submit env kickoff f =
      (true, [UIEvent.jsonSummary (mkUserInfo f),
              UIEvent.errorMsg ("An error occurred: " ++ e)]) := by
    simp [app_submit, run_nutrition_advisor, hg, hk, advisorOutcome, renderResult]
  refine ⟨hmain, ?_, ?_⟩ <;> (rw [hmain]; rfl)

/-- C6 witness: a concrete failing kickoff on the scenario form. -/
theorem pipeline_exception_single_error_witness :
    weightLossForm.goals ≠ [] ∧
    (∀ c, failKickoff "boom" c = Except.error "boom") ∧
    (app_submit noEnv (failKickoff "boom") weightLossForm =
      (true, [UIEvent.jsonSummary (mkUserInfo weightLossForm),
              UIEvent.errorMsg ("An error occurred: " ++ "boom")]) ∧
     renderedPlan (app_submit noEnv (failKickoff "boom") weightLossForm).2 = none ∧
     downloadData (app_submit noEnv (failKickoff "boom") weightLossForm).2 = none) :=
  ⟨by decide, fun _ => rfl,
   pipeline_exception_single_error noEnv (failKickoff "boom") weightLossForm "boom"
     (by decide) (fun _ => rfl)⟩

/-- C7: on the spec §8 scenario profile, the literal substrings
`"Age: 30"`, `"Weight Loss"` and `"Moderately Active"` all occur in the
first task's description and in neither other task's description. -/
theorem scenario_profile_substrings
    (nutritionist medical_specialist diet_planner : Agent) :
    ∃ t1 t2 t3,
      create_tasks nutritionist medical_specialist diet_planner scenarioProfile
        = [t1, t2, t3] ∧
      (strContains t1.description "Age: 30" = true ∧
       strContains t1.description "Weight Loss" = true ∧
       strContains t1.description "Moderately Active" = true) ∧
      (strContains t2.description "Age: 30" = false ∧
       strContains t2.description "Weight Loss" = false ∧
       strContains t2.description "Moderately Active" = false) ∧
      (strContains t3.description "Age: 30" = false ∧
       strContains t3.description "Weight Loss" = false ∧
       strContains t3.description "Moderately Active" = false) := by
  refine ⟨_, _, _, rfl, ⟨?_, ?_, ?_⟩, ⟨?_, ?_, ?_⟩, ⟨?_, ?_, ?_⟩⟩ <;>
    (simp only [TaskSpec.description]; decide)

/-- C8: every run instantiates exactly three agent descriptors with the
fixed capabilities — Nutrition Specialist with the search tool and
delegation allowed, Medical Nutrition Therapist with the search tool and
no delegation, Therapeutic Diet Planner with no external tool — all
referencing the same shared model-client configuration. -/
theorem agents_fixed_capabilities_shared_llm (cfg : LLMConfig) :
    ∃ nutritionist medical_specialist diet_planner,
      create_agents cfg = (nutritionist, medical_specialist, diet_planner) ∧
      nutritionist.tools = [Tool.serperDev] ∧
      nutritionist.allow_delegation = true ∧
      medical_specialist.tools = [Tool.serperDev] ∧
      medical_specialist.allow_delegation = false ∧
      diet_planner.tools = ([] : List Tool) ∧
      nutritionist.llm = cfg ∧ medical_specialist.llm = cfg ∧
      diet_planner.llm = cfg :=
  ⟨_, _, _, rfl, rfl, rfl, rfl, rfl, rfl, rfl, rfl, rfl⟩

/-- C9: on every submission path (aborted, failed, successful) the data
offered by the download button is byte-identical to the rendered plan
text — both are absent, or both are the very same string, with no
post-processing of either. -/
theorem download_matches_rendered_plan (env : Env)
    (kickoff : Crew → Except String String) (f : FormState) :
    downloadData (app_submit env kickoff f).2 =
      renderedPlan (app_submit env kickoff f).2 := by
  cases hg : f.goals.isEmpty with
  | true => simp [app_submit, hg, downloadData, renderedPlan]
  | false =>
      cases hk : kickoff (builtCrew env (mkUserInfo f)) with
      | error e =>
          simp [app_submit, run_nutrition_advisor, hg, hk, advisorOutcome,
            renderResult, downloadData, renderedPlan]
      | ok r =>
          simp [app_submit, run_nutrition_advisor, hg, hk, advisorOutcome,
            renderResult, downloadData, renderedPlan]

/-- C10: in every submission that reaches the pipeline, the goals value
interpolated into the first task description equals the comma join of
the non-empty selection; drawn from the multiselect vocabulary it is
never the empty-selection fallback `"General health improvement"`, which
is only assigned when the selection is empty — and such submissions
abort before the pipeline runs. -/
theorem executed_goals_interpolation (env : Env)
    (kickoff : Crew → Except String String) (f : FormState)
    (hne : f.goals ≠ []) (hv : ∀ g ∈ f.goals, g ∈ goalOptions) :
    (mkUserInfo f).goals = joinGoals f.goals ∧
    (mkUserInfo f).goals ≠ "General health improvement" ∧
    (∃ pre post,
      demographicsDescription (mkUserInfo f) = pre ++ joinGoals f.goals ++ post) ∧
    (app_submit env kickoff f).1 = true := by
  have hg : f.goals.isEmpty = false := List.isEmpty_eq_false.mpr hne
  have h1 : (mkUserInfo f).goals = joinGoals f.goals := by simp [mkUserInfo, hg]
  refine ⟨h1, ?_, ?_, ?_⟩
  · rw [h1]
    exact joinGoals_ne_fallback f.goals hne hv
  · rw [← h1]
    exact ⟨_, _, rfl⟩
  · simp [app_submit, hg]

/-- C10 witness: the scenario form reaches the pipeline and its goals
value is the join of its selection. -/
theorem executed_goals_interpolation_witness :
    weightLossForm.goals ≠ [] ∧
    (∀ g ∈ weightLossForm.goals, g ∈ goalOptions) ∧
    ((mkUserInfo weightLossForm).goals = joinGoals weightLossForm.goals ∧
     (mkUserInfo weightLossForm).goals ≠ "General health improvement" ∧
     (∃ pre post,
       demographicsDescription (mkUserInfo weightLossForm) =
         pre ++ joinGoals weightLossForm.goals ++ post) ∧
     (app_submit noEnv (okKickoff "plan") weightLossForm).1 = true) :=
  ⟨by decide, by decide,
   executed_goals_interpolation noEnv (okKickoff "plan") weightLossForm
     (by decide) (by decide)⟩
